import Mathlib

/-!
Shallow embedding of the PHARMAGUARD pharmacogenomic lookup pipeline:
VCF parse (engine/vcfParser.ts) → diplotype build (engine/diplotypeEngine.ts)
→ phenotype map (engine/phenotypeEngine.ts) → drug recommendation lookup
(engine/drugEngine.ts) → report assembly (App.tsx, runAnalysis).
Strings are modelled as Lean strings; JavaScript string primitives
(split, trim, toUpperCase, default Array.sort order) are embedded below
with structurally recursive definitions so that the kernel can evaluate
them on concrete inputs.
-/

namespace PharmaGuard

/-- Splits a character list at every occurrence of `sep`, keeping empty
segments, matching the semantics of JavaScript `String.prototype.split`
with a single-character separator. -/
def splitChars (sep : Char) : List Char → List (List Char)
  | [] => [[]]
  | c :: cs =>
    match splitChars sep cs with
    | [] => [[c]]
    | g :: gs => if c = sep then [] :: g :: gs else (c :: g) :: gs

/-- JavaScript `s.split(sep)` for a one-character separator. -/
def jsSplit (sep : Char) (s : String) : List String :=
  (splitChars sep s.data).map String.mk

/-- JavaScript `s.trim()` (restricted to ASCII whitespace, which is all the
pipeline ever feeds it). -/
def jsTrim (s : String) : String :=
  String.mk (((s.data.dropWhile Char.isWhitespace).reverse.dropWhile Char.isWhitespace).reverse)

/-- JavaScript `s.toUpperCase()` (ASCII letters, which is all the pipeline
ever feeds it). -/
def toUpperCase (s : String) : String :=
  String.mk (s.data.map Char.toUpper)

/-- JavaScript truthiness of a possibly-absent string: `undefined`/`null`
and the empty string are falsy. -/
def truthy : Option String → Bool
  | none => false
  | some s => s != ""

/-- JavaScript `x?.f || dflt` for a string-valued field. -/
def jsOr (o : Option String) (dflt : String) : String :=
  match o with
  | none => dflt
  | some s => if s = "" then dflt else s

/-- UTF-16 code units of a string, the units JavaScript string comparison
operates on. -/
def utf16Units (s : String) : List Nat :=
  s.data.foldr
    (fun c acc =>
      let v := c.toNat
      if v < 65536 then v :: acc
      else (55296 + (v - 65536) / 1024) :: (56320 + (v - 65536) % 1024) :: acc)
    []

/-- Lexicographic strict order on code-unit lists. -/
def lexLtNat : List Nat → List Nat → Bool
  | _, [] => false
  | [], _ :: _ => true
  | a :: as, b :: bs => a < b || (a = b && lexLtNat as bs)

/-- JavaScript `a < b` on strings (code-unit lexicographic order). -/
def jsLt (a b : String) : Bool :=
  lexLtNat (utf16Units a) (utf16Units b)

/-- Insertion into a list sorted by `jsLt`. -/
def jsInsert (x : String) : List String → List String
  | [] => [x]
  | y :: ys => if jsLt x y then x :: y :: ys else y :: jsInsert x ys

/-- JavaScript `arr.sort()` with the default (code-unit lexicographic)
comparator. -/
def jsSort (l : List String) : List String :=
  l.foldr jsInsert []

/-- JavaScript `arr.join('/')`. -/
def joinSlash : List String → String
  | [] => ""
  | [x] => x
  | x :: y :: ys => x ++ "/" ++ joinSlash (y :: ys)

/-! ### Data model (types.ts) -/

/-- Phenotype enum of `types.ts` (string values given by `phenotypeStr`). -/
inductive Phenotype where
  | PM | IM | NM | RM | UM | UNKNOWN
  deriving DecidableEq, Repr

/-- The string value each `Phenotype` enum member carries in `types.ts`. -/
def phenotypeStr : Phenotype → String
  | .PM => "PM"
  | .IM => "IM"
  | .NM => "NM"
  | .RM => "RM"
  | .UM => "UM"
  | .UNKNOWN => "Unknown"

/-- RiskLabel enum of `types.ts`. -/
inductive RiskLabel where
  | SAFE | ADJUST_DOSAGE | TOXIC | INEFFECTIVE | UNKNOWN
  deriving DecidableEq, Repr

/-- The string value each `RiskLabel` enum member carries in `types.ts`. -/
def riskLabelStr : RiskLabel → String
  | .SAFE => "Safe"
  | .ADJUST_DOSAGE => "Adjust Dosage"
  | .TOXIC => "Toxic"
  | .INEFFECTIVE => "Ineffective"
  | .UNKNOWN => "Unknown"

/-- Severity enum of `types.ts`. -/
inductive Severity where
  | NONE | LOW | MODERATE | HIGH | CRITICAL
  deriving DecidableEq, Repr

/-- The string value each `Severity` enum member carries in `types.ts`. -/
def severityStr : Severity → String
  | .NONE => "none"
  | .LOW => "low"
  | .MODERATE => "moderate"
  | .HIGH => "high"
  | .CRITICAL => "critical"

/-- `VcfVariant` of `types.ts`. -/
structure VcfVariant where
  gene : String
  star : String
  rs : String
  deriving DecidableEq, Repr

/-- `GeneProfile` of `types.ts`. -/
structure GeneProfile where
  gene : String
  diplotype : String
  phenotype : Phenotype
  deriving DecidableEq, Repr

/-- `DetectedVariant` of `types.ts`. -/
structure DetectedVariant where
  rsid : String
  gene : String
  star_allele : String
  zygosity : String
  clinical_significance : String
  deriving DecidableEq, Repr

/-- `CPICRecommendation` of `types.ts` (every record the code constructs
populates the optional `dosing_recommendation` and `mechanism` fields, so
they are plain strings here). -/
structure CPICRecommendation where
  drug : String
  phenotype : Phenotype
  risk_label : RiskLabel
  severity : Severity
  action : String
  evidence_level : String
  dosing_recommendation : String
  mechanism : String
  deriving DecidableEq, Repr

/-- `TARGET_GENES` of `types.ts`: the fixed 6-element gene allow-list. -/
def TARGET_GENES : List String :=
  ["CYP2D6", "CYP2C19", "CYP2C9", "SLCO1B1", "TPMT", "DPYD"]

/-! ### Variant Extractor (engine/vcfParser.ts) -/

/-- The gene/star/rs tag values accumulated while scanning an INFO field. -/
structure InfoTags where
  gene : Option String
  star : Option String
  rs : Option String
  deriving DecidableEq, Repr

/-- One iteration of the INFO-pair loop in `parseVcf`: split the pair on
`=`, skip it when key or value is missing/empty, otherwise record the
trimmed value under a case-insensitive GENE/STAR/RS key match. -/
def updateTags (acc : InfoTags) (pair : String) : InfoTags :=
  match jsSplit '=' pair with
  | key :: value :: _ =>
    if key = "" ∨ value = "" then acc
    else
      let cleanKey := toUpperCase (jsTrim key)
      let cleanValue := jsTrim value
      let acc1 := if cleanKey = "GENE" then { acc with gene := some cleanValue } else acc
      let acc2 := if cleanKey = "STAR" then { acc1 with star := some cleanValue } else acc1
      if cleanKey = "RS" then { acc2 with rs := some cleanValue } else acc2
  | _ => acc

/-- Scan of all semicolon-separated INFO pairs (last assignment wins, as in
the source's `for` loop). -/
def scanInfo (pairs : List String) : InfoTags :=
  pairs.foldl updateTags ⟨none, none, none⟩

/-- JavaScript `line.startsWith('#')`. -/
def startsWithHash (line : String) : Bool :=
  match line.data with
  | c :: _ => c = '#'
  | [] => false

/-- Processing of a single line by `parseVcf` in `engine/vcfParser.ts`:
skip comments/blank lines and lines with fewer than 8 tab-separated
fields; scan the INFO (8th) field for GENE/STAR/RS tags; emit a variant
only when GENE and STAR are truthy and the uppercased GENE is in
`TARGET_GENES`.  The `rs` field reproduces the source expression
`rs || parts[2] !== '.' ? parts[2] : 'unknown'` with JavaScript operator
precedence, i.e. `(rs || (parts[2] !== '.')) ? parts[2] : 'unknown'`. -/
def parseVcfLine (line : String) : Option VcfVariant :=
  if startsWithHash line || jsTrim line == "" then
    none
  else
    let parts := jsSplit '\t' line
    if parts.length < 8 then none
    else
      let tags := scanInfo (jsSplit ';' (parts.getD 7 ""))
      if truthy tags.gene ∧ truthy tags.star ∧
          TARGET_GENES.contains (toUpperCase (tags.gene.getD "")) then
        some
          { gene := toUpperCase (tags.gene.getD "")
            star := tags.star.getD ""
            rs := if truthy tags.rs ∨ parts.getD 2 "" ≠ "." then parts.getD 2 "" else "unknown" }
      else none

/-- `parseVcf` of `engine/vcfParser.ts`: split the content on newlines and
collect the variant (if any) each line yields, in order. -/
def parseVcf (content : String) : List VcfVariant :=
  (jsSplit '\n' content).filterMap parseVcfLine

/-! ### Diplotype Builder (engine/diplotypeEngine.ts) -/

/-- `buildDiplotype` of `engine/diplotypeEngine.ts`: collect the star
alleles of the variants for `gene`; 0 alleles → `*1/*1`; 1 allele → sort
it against `*1` and join with `/`; otherwise take the first two alleles,
sort, and join. -/
def buildDiplotype (gene : String) (variants : List VcfVariant) : String :=
  let geneAlleles := (variants.filter (fun v => v.gene == gene)).map (fun v => v.star)
  match geneAlleles with
  | [] => "*1/*1"
  | [a] => joinSlash (jsSort ["*1", a])
  | _ => joinSlash (jsSort (geneAlleles.take 2))

/-! ### Phenotype Resolver (engine/phenotypeEngine.ts, data/cpicData.ts) -/

/-- `PHENOTYPE_MAP` of `data/cpicData.ts`: gene → diplotype → phenotype. -/
def PHENOTYPE_MAP : List (String × List (String × Phenotype)) :=
  [("CYP2C19",
    [("*1/*1", .NM), ("*1/*17", .RM), ("*17/*17", .UM), ("*1/*2", .IM),
     ("*1/*3", .IM), ("*2/*2", .PM), ("*2/*3", .PM), ("*2/*17", .IM),
     ("*3/*3", .PM), ("*2/*4", .PM), ("*1/*4", .IM)]),
   ("CYP2D6",
    [("*1/*1", .NM), ("*1/*2", .NM), ("*2/*2", .NM), ("*1/*4", .IM),
     ("*1/*5", .IM), ("*1/*6", .IM), ("*1/*9", .IM), ("*1/*41", .IM),
     ("*41/*41", .IM), ("*4/*4", .PM), ("*4/*5", .PM), ("*5/*5", .PM),
     ("*3/*4", .PM), ("*6/*6", .PM), ("*1/*1x2", .UM), ("*1/*2x2", .UM),
     ("*2x2/*2x2", .UM)]),
   ("SLCO1B1",
    [("*1/*1", .NM), ("*1/*5", .IM), ("*1/*15", .IM), ("*5/*5", .PM),
     ("*5/*15", .PM), ("*15/*15", .PM)]),
   ("CYP2C9",
    [("*1/*1", .NM), ("*1/*2", .IM), ("*1/*3", .IM), ("*2/*2", .IM),
     ("*2/*3", .PM), ("*3/*3", .PM), ("*1/*5", .IM), ("*1/*6", .IM),
     ("*1/*8", .IM), ("*1/*11", .IM)]),
   ("TPMT",
    [("*1/*1", .NM), ("*1/*2", .IM), ("*1/*3A", .IM), ("*1/*3B", .IM),
     ("*1/*3C", .IM), ("*1/*4", .IM), ("*2/*2", .PM), ("*3A/*3A", .PM),
     ("*3C/*3C", .PM), ("*2/*3A", .PM), ("*2/*3C", .PM)]),
   ("DPYD",
    [("*1/*1", .NM), ("*1/*2A", .IM), ("*1/*13", .IM), ("*2A/*2A", .PM),
     ("*1/*5", .IM), ("*13/*13", .PM)])]

/-- The own-property core of `getPhenotype` of `engine/phenotypeEngine.ts`:
unknown gene → `Unknown`; known gene with an untabled diplotype → `NM`
(the source's `geneMap[diplotype] || Phenotype.NM`; all tabled phenotype
strings are truthy).  This models the two object reads as own-key lookups;
`getPhenotypeJs` below additionally models the JavaScript prototype chain,
and `getPhenotype_agrees_with_js` shows the two agree on every input the
pipeline produces (target genes and slash-joined diplotypes). -/
def getPhenotype (gene diplotype : String) : Phenotype :=
  match PHENOTYPE_MAP.lookup gene with
  | none => Phenotype.UNKNOWN
  | some geneMap => (geneMap.lookup diplotype).getD Phenotype.NM

/-- The own and inherited property names of `Object.prototype` (the seven
ECMAScript members plus the five Annex B legacy members, all present in
browsers and Node): a property read on an object literal that misses every
own key still finds these, and all of their values are truthy (builtin
functions, or `Object.prototype` itself for `__proto__`). -/
def OBJECT_PROTOTYPE_MEMBERS : List String :=
  ["constructor", "hasOwnProperty", "isPrototypeOf", "propertyIsEnumerable",
   "toLocaleString", "toString", "valueOf", "__proto__",
   "__defineGetter__", "__defineSetter__", "__lookupGetter__", "__lookupSetter__"]

/-- Property names that can exist on the builtin objects reachable through
the tables' prototype chain (the `Object.prototype` methods, the `Object`
constructor, and `Object.prototype` itself): function metadata and
poisoned accessors, `Function.prototype` members, `Object` constructor
statics, and the `Object.prototype` members.  ECMAScript gives these
builtins no other properties, so a read of any key outside this list on
any of them is `undefined`. -/
def BUILTIN_PROPERTY_NAMES : List String :=
  ["length", "name", "prototype", "apply", "bind", "call", "caller", "arguments",
   "assign", "create", "defineProperties", "defineProperty", "entries", "freeze",
   "fromEntries", "getOwnPropertyDescriptor", "getOwnPropertyDescriptors",
   "getOwnPropertyNames", "getOwnPropertySymbols", "getPrototypeOf", "groupBy",
   "hasOwn", "is", "isExtensible", "isFrozen", "isSealed", "keys",
   "preventExtensions", "seal", "setPrototypeOf", "values"] ++
  OBJECT_PROTOTYPE_MEMBERS

/-- Result of the JavaScript property read `PHENOTYPE_MAP[gene]`: an own
inner table, a truthy member inherited from `Object.prototype` (own keys
shadow inherited ones), or `undefined`. -/
inductive OuterRead where
  | table (m : List (String × Phenotype))
  | protoMember (name : String)
  | undef
  deriving DecidableEq, Repr

/-- The outer read `PHENOTYPE_MAP[gene]` with prototype-chain semantics. -/
def readPhenotypeMap (gene : String) : OuterRead :=
  match PHENOTYPE_MAP.lookup gene with
  | some m => OuterRead.table m
  | none =>
    if OBJECT_PROTOTYPE_MEMBERS.contains gene then OuterRead.protoMember gene
    else OuterRead.undef

/-- The runtime result of `getPhenotype` under full JavaScript property
semantics.  The TypeScript signature promises a `Phenotype`, but the
prototype chain lets other values escape: `leakedProtoMember n` is the
truthy member `n` inherited from `Object.prototype` returned as is by
`geneMap[diplotype] || NM`, and `builtinRead n k` is the value of the
property `k` of the inherited builtin `n` (a read whose exact result —
a number, a string, a function, or a thrown TypeError for the poisoned
`caller`/`arguments` accessors — is fixed by the engine's builtin objects
and is left unresolved here). -/
inductive JsPhenotypeResult where
  | phenotype (p : Phenotype)
  | leakedProtoMember (name : String)
  | builtinRead (memberName diplotype : String)
  deriving DecidableEq, Repr

/-- `getPhenotype` of `engine/phenotypeEngine.ts` with full JavaScript
property semantics: `PHENOTYPE_MAP[gene]` and `geneMap[diplotype]` consult
the prototype chain after the own keys.  A falsy read (`undefined` from a
key absent from both the own keys and the relevant prototype properties)
takes the source's `Unknown` and `|| NM` branches; a truthy inherited
member leaks through them. -/
def getPhenotypeJs (gene diplotype : String) : JsPhenotypeResult :=
  match readPhenotypeMap gene with
  | OuterRead.undef => JsPhenotypeResult.phenotype Phenotype.UNKNOWN
  | OuterRead.table geneMap =>
    match geneMap.lookup diplotype with
    | some ph => JsPhenotypeResult.phenotype ph
    | none =>
      if OBJECT_PROTOTYPE_MEMBERS.contains diplotype then
        JsPhenotypeResult.leakedProtoMember diplotype
      else JsPhenotypeResult.phenotype Phenotype.NM
  | OuterRead.protoMember name =>
    if BUILTIN_PROPERTY_NAMES.contains diplotype then
      JsPhenotypeResult.builtinRead name diplotype
    else JsPhenotypeResult.phenotype Phenotype.NM

/-- `DRUG_GENE_MAP` of `data/cpicData.ts`. -/
def DRUG_GENE_MAP : List (String × String) :=
  [("CODEINE", "CYP2D6"), ("WARFARIN", "CYP2C9"), ("CLOPIDOGREL", "CYP2C19"),
   ("SIMVASTATIN", "SLCO1B1"), ("AZATHIOPRINE", "TPMT"), ("FLUOROURACIL", "DPYD")]

/-- `RECOMMENDATION_DATA` of `data/cpicData.ts`: the flat (drug, phenotype)
→ recommendation table, in source order. -/
def RECOMMENDATION_DATA : List CPICRecommendation :=
  [{ drug := "CLOPIDOGREL", phenotype := .PM, risk_label := .INEFFECTIVE, severity := .CRITICAL,
     action := "Avoid clopidogrel; use alternative antiplatelet therapy (e.g., prasugrel, ticagrelor).",
     evidence_level := "A",
     dosing_recommendation := "Do NOT prescribe clopidogrel. Switch to prasugrel 10mg daily or ticagrelor 90mg twice daily.",
     mechanism := "CYP2C19 Poor Metabolizers cannot convert clopidogrel prodrug to its active metabolite, resulting in inadequate platelet inhibition and significantly increased risk of cardiovascular events including stent thrombosis." },
   { drug := "CLOPIDOGREL", phenotype := .IM, risk_label := .INEFFECTIVE, severity := .HIGH,
     action := "Avoid clopidogrel; use alternative therapy if no contraindications.",
     evidence_level := "A",
     dosing_recommendation := "Consider switching to prasugrel or ticagrelor. If clopidogrel is continued, higher loading dose may be insufficient.",
     mechanism := "CYP2C19 Intermediate Metabolizers have reduced capacity to convert clopidogrel to its active form, leading to diminished antiplatelet effect and increased risk of adverse cardiovascular outcomes." },
   { drug := "CLOPIDOGREL", phenotype := .NM, risk_label := .SAFE, severity := .NONE,
     action := "Standard clopidogrel dosing.",
     evidence_level := "A",
     dosing_recommendation := "Standard dose: 75mg daily after appropriate loading dose (300-600mg).",
     mechanism := "Normal CYP2C19 activity enables adequate conversion of clopidogrel to its active metabolite for expected antiplatelet efficacy." },
   { drug := "CLOPIDOGREL", phenotype := .RM, risk_label := .SAFE, severity := .NONE,
     action := "Standard clopidogrel dosing. Enhanced metabolism may improve efficacy.",
     evidence_level := "A",
     dosing_recommendation := "Standard dose: 75mg daily. No adjustment needed.",
     mechanism := "Rapid metabolizers have increased CYP2C19 activity, leading to enhanced conversion of clopidogrel prodrug to active metabolite." },
   { drug := "CLOPIDOGREL", phenotype := .UM, risk_label := .SAFE, severity := .LOW,
     action := "Standard clopidogrel dosing. Monitor for increased bleeding risk.",
     evidence_level := "B",
     dosing_recommendation := "Standard dose: 75mg daily. Monitor for bleeding signs.",
     mechanism := "Ultrarapid CYP2C19 metabolism produces higher levels of active metabolite, potentially increasing bleeding risk while ensuring drug efficacy." },
   { drug := "CODEINE", phenotype := .UM, risk_label := .TOXIC, severity := .CRITICAL,
     action := "Avoid codeine; use non-opioid analgesic or alternative opioid not metabolized by CYP2D6.",
     evidence_level := "A",
     dosing_recommendation := "CONTRAINDICATED. Use non-opioid analgesic (ibuprofen, acetaminophen) or non-CYP2D6 opioid (morphine).",
     mechanism := "Ultrarapid CYP2D6 metabolism converts codeine to morphine at an extremely accelerated rate, causing life-threatening respiratory depression and toxicity, particularly dangerous in pediatric patients." },
   { drug := "CODEINE", phenotype := .PM, risk_label := .INEFFECTIVE, severity := .HIGH,
     action := "Avoid codeine; use alternative analgesic.",
     evidence_level := "A",
     dosing_recommendation := "Codeine will be ineffective. Use alternative analgesic (e.g., acetaminophen, NSAIDs, or morphine).",
     mechanism := "CYP2D6 Poor Metabolizers cannot convert codeine to its active metabolite morphine, resulting in no analgesic effect regardless of dose." },
   { drug := "CODEINE", phenotype := .IM, risk_label := .ADJUST_DOSAGE, severity := .MODERATE,
     action := "Reduced efficacy expected. Consider alternative analgesic.",
     evidence_level := "B",
     dosing_recommendation := "If used, standard dosing may provide reduced analgesia. Prefer non-CYP2D6-dependent analgesic.",
     mechanism := "Reduced CYP2D6 activity leads to diminished conversion of codeine to morphine, resulting in sub-therapeutic analgesic effects." },
   { drug := "CODEINE", phenotype := .NM, risk_label := .SAFE, severity := .NONE,
     action := "Standard codeine dosing appropriate.",
     evidence_level := "A",
     dosing_recommendation := "Standard dose: 15-60mg every 4-6 hours as needed.",
     mechanism := "Normal CYP2D6 metabolism provides expected conversion of codeine to morphine for adequate pain relief." },
   { drug := "SIMVASTATIN", phenotype := .PM, risk_label := .TOXIC, severity := .HIGH,
     action := "Prescribe lower dose or consider alternative statin (e.g., Rosuvastatin, Pravastatin).",
     evidence_level := "A",
     dosing_recommendation := "Avoid simvastatin >20mg. Consider rosuvastatin or pravastatin which are not SLCO1B1-dependent.",
     mechanism := "SLCO1B1 Poor Function leads to severely impaired hepatic uptake of simvastatin acid, causing dramatically elevated systemic exposure and high risk of myopathy and rhabdomyolysis." },
   { drug := "SIMVASTATIN", phenotype := .IM, risk_label := .ADJUST_DOSAGE, severity := .MODERATE,
     action := "Use lower simvastatin dose. Avoid >20mg daily.",
     evidence_level := "A",
     dosing_recommendation := "Limit simvastatin to ≤20mg/day. Monitor for muscle symptoms (myalgia, CK elevation).",
     mechanism := "Reduced SLCO1B1 transporter function leads to increased systemic exposure of simvastatin acid, elevating myopathy risk." },
   { drug := "SIMVASTATIN", phenotype := .NM, risk_label := .SAFE, severity := .NONE,
     action := "Standard simvastatin dosing appropriate.",
     evidence_level := "A",
     dosing_recommendation := "Standard dose: 20-40mg daily in the evening.",
     mechanism := "Normal SLCO1B1 transporter function ensures adequate hepatic uptake and expected pharmacokinetics." },
   { drug := "WARFARIN", phenotype := .PM, risk_label := .ADJUST_DOSAGE, severity := .MODERATE,
     action := "Reduce starting dose by 30-50% based on CYP2C9 genotype. Frequent INR monitoring required.",
     evidence_level := "A",
     dosing_recommendation := "Reduce initial dose by 30-50%. Start with ~2-3mg/day instead of standard 5mg. Monitor INR closely.",
     mechanism := "CYP2C9 Poor Metabolizers have severely reduced clearance of S-warfarin (the more potent enantiomer), leading to prolonged anticoagulation, elevated INR, and high bleeding risk." },
   { drug := "WARFARIN", phenotype := .IM, risk_label := .ADJUST_DOSAGE, severity := .LOW,
     action := "Reduce starting dose by 15-30%. Monitor INR closely.",
     evidence_level := "A",
     dosing_recommendation := "Reduce initial dose by 15-30%. Start with ~3-4mg/day. Frequent INR monitoring.",
     mechanism := "CYP2C9 Intermediate Metabolizers have moderately reduced warfarin clearance, requiring lower doses to achieve therapeutic INR range." },
   { drug := "WARFARIN", phenotype := .NM, risk_label := .SAFE, severity := .NONE,
     action := "Standard warfarin dosing per clinical protocol.",
     evidence_level := "A",
     dosing_recommendation := "Standard starting dose: 5mg daily, titrate based on INR (target 2.0-3.0).",
     mechanism := "Normal CYP2C9 activity provides expected warfarin metabolism for standard dose-response relationship." },
   { drug := "AZATHIOPRINE", phenotype := .PM, risk_label := .TOXIC, severity := .CRITICAL,
     action := "Reduce dose by 10-fold and monitor, or consider alternative immunosuppressant.",
     evidence_level := "A",
     dosing_recommendation := "Reduce to 10% of standard dose (0.5-1.5 mg/kg/week in 3 divided doses) or avoid entirely.",
     mechanism := "TPMT Poor Metabolizers accumulate extremely high levels of cytotoxic thioguanine nucleotides (TGN), causing severe and potentially fatal myelosuppression including pancytopenia." },
   { drug := "AZATHIOPRINE", phenotype := .IM, risk_label := .ADJUST_DOSAGE, severity := .MODERATE,
     action := "Reduce dose by 30-70% of standard starting dose.",
     evidence_level := "A",
     dosing_recommendation := "Start at 30-70% of standard dose. Monitor CBC weekly for first month, then monthly.",
     mechanism := "TPMT Intermediate Metabolizers have reduced thiopurine methylation capacity, leading to higher TGN levels and increased myelosuppression risk." },
   { drug := "AZATHIOPRINE", phenotype := .NM, risk_label := .SAFE, severity := .NONE,
     action := "Standard azathioprine dosing. Routine monitoring.",
     evidence_level := "A",
     dosing_recommendation := "Standard dose: 2-3 mg/kg/day. Monitor CBC periodically.",
     mechanism := "Normal TPMT activity provides expected thiopurine metabolism with standard risk of adverse effects." },
   { drug := "FLUOROURACIL", phenotype := .PM, risk_label := .TOXIC, severity := .CRITICAL,
     action := "Contraindicated; avoid usage or use extremely reduced dose with strict monitoring.",
     evidence_level := "A",
     dosing_recommendation := "CONTRAINDICATED in DPYD PM. If absolutely necessary, reduce to <25% of standard dose with intensive monitoring.",
     mechanism := "DPYD Poor Metabolizers cannot adequately catabolize fluoropyrimidines, causing accumulation of cytotoxic drug levels leading to life-threatening mucositis, myelosuppression, neurotoxicity, and potentially death." },
   { drug := "FLUOROURACIL", phenotype := .IM, risk_label := .ADJUST_DOSAGE, severity := .HIGH,
     action := "Reduce dose by 25-50% and monitor for toxicity.",
     evidence_level := "A",
     dosing_recommendation := "Reduce initial dose by 25-50%. Monitor for severe toxicity (mucositis, diarrhea, neutropenia).",
     mechanism := "DPYD Intermediate Metabolizers have reduced fluoropyrimidine catabolism, increasing exposure to cytotoxic metabolites and risk of severe toxicity." },
   { drug := "FLUOROURACIL", phenotype := .NM, risk_label := .SAFE, severity := .NONE,
     action := "Standard fluorouracil dosing per oncology protocol.",
     evidence_level := "A",
     dosing_recommendation := "Standard dosing per oncology protocol. Routine toxicity monitoring.",
     mechanism := "Normal DPYD activity provides expected fluoropyrimidine catabolism with standard toxicity risk." }]

/-! ### Recommendation Resolver (engine/drugEngine.ts) -/

/-- The default recommendation `getRecommendation` constructs when the
(drug, phenotype) pair is not in `RECOMMENDATION_DATA`. -/
def defaultRecommendation (normalizedInput : String) (phenotype : Phenotype) : CPICRecommendation :=
  { drug := normalizedInput
    phenotype := phenotype
    risk_label := .SAFE
    severity := .NONE
    action := "Standard therapeutic dosing recommended based on genotype."
    evidence_level := "A"
    dosing_recommendation := "Standard dosing per clinical protocol."
    mechanism := "Normal metabolizer phenotype supports standard drug pharmacokinetics." }

/-- `getRecommendation` of `engine/drugEngine.ts`: normalize the drug,
look up its gene in `DRUG_GENE_MAP` (absent → `null`), find the profile
for that gene (absent → `null`), then the first (drug, phenotype) match in
`RECOMMENDATION_DATA`, else the default Safe recommendation. -/
def getRecommendation (drugInput : String) (profiles : List GeneProfile) :
    Option CPICRecommendation :=
  let normalizedInput := toUpperCase (jsTrim drugInput)
  match DRUG_GENE_MAP.lookup normalizedInput with
  | none => none
  | some targetGene =>
    match profiles.find? (fun p => p.gene == targetGene) with
    | none => none
    | some profile =>
      match RECOMMENDATION_DATA.find?
          (fun r => r.drug == normalizedInput && r.phenotype == profile.phenotype) with
      | some r => some r
      | none => some (defaultRecommendation normalizedInput profile.phenotype)

/-! ### Report Assembler (App.tsx) -/

/-- The `llm_generated_explanation` record shape of the analysis
response. -/
structure LlmExplanation where
  summary : String
  mechanism : String
  clinical_impact : String
  alternative_drugs : String
  deriving DecidableEq, Repr

/-- `LLM_EXPLANATIONS` of `data/cpicData.ts`: drug → phenotype key →
canned explanation record. -/
def LLM_EXPLANATIONS : List (String × List (String × LlmExplanation)) :=
  [("CLOPIDOGREL",
    [("PM",
      { summary := "Your CYP2C19 genotype indicates you are a Poor Metabolizer, meaning clopidogrel will NOT provide adequate blood-thinning protection. This is a critical finding requiring immediate medication change.",
        mechanism := "Clopidogrel is a prodrug requiring CYP2C19-mediated bioactivation. The *2 and *3 alleles encode non-functional CYP2C19 enzyme, preventing conversion to the active thiol metabolite needed for irreversible P2Y12 receptor blockade on platelets.",
        clinical_impact := "Without adequate platelet inhibition, you face a 3-4× increased risk of major adverse cardiovascular events (MACE) including stent thrombosis, myocardial infarction, and stroke.",
        alternative_drugs := "Prasugrel (Effient®) 10mg daily or Ticagrelor (Brilinta®) 90mg twice daily — both bypass CYP2C19 metabolism." }),
     ("IM",
      { summary := "Your CYP2C19 genotype indicates Intermediate Metabolizer status, meaning clopidogrel activation is reduced. Alternative antiplatelet therapy is recommended.",
        mechanism := "One functional and one reduced/non-functional CYP2C19 allele results in approximately 30-40% reduced formation of the active metabolite.",
        clinical_impact := "Intermediate metabolizers show roughly 2× increased risk of cardiovascular events on clopidogrel compared to normal metabolizers.",
        alternative_drugs := "Prasugrel or ticagrelor preferred. If clopidogrel must be used, consider higher maintenance dose (150mg/day) though evidence is limited." }),
     ("NM",
      { summary := "Your CYP2C19 genotype indicates Normal Metabolizer status. Clopidogrel is expected to work as intended at standard doses.",
        mechanism := "Normal CYP2C19 enzyme activity provides adequate conversion of clopidogrel prodrug to its active thiol metabolite for effective platelet inhibition.",
        clinical_impact := "Standard antiplatelet efficacy expected. Continue standard dosing protocol.",
        alternative_drugs := "No pharmacogenomic-based switch needed. Continue standard therapy." }),
     ("RM",
      { summary := "Your CYP2C19 genotype indicates Rapid Metabolizer status. Clopidogrel metabolism is enhanced and the drug is expected to be effective.",
        mechanism := "The *17 gain-of-function allele increases CYP2C19 transcription, enhancing prodrug activation.",
        clinical_impact := "Enhanced antiplatelet effect expected. Slight increase in bleeding risk but generally favorable outcome.",
        alternative_drugs := "No change needed. Standard clopidogrel therapy is appropriate." })]),
   ("CODEINE",
    [("UM",
      { summary := "CRITICAL SAFETY ALERT: Your CYP2D6 genotype shows Ultrarapid Metabolizer status. Codeine is DANGEROUS for you as it converts too quickly to morphine, risking respiratory depression and death.",
        mechanism := "CYP2D6 gene duplication (*1x2, *2x2) causes ultra-rapid O-demethylation of codeine to morphine, producing supratherapeutic and potentially lethal morphine concentrations.",
        clinical_impact := "Life-threatening risk of respiratory depression, particularly dangerous in children and breastfeeding mothers. FDA Black Box Warning applies.",
        alternative_drugs := "Non-opioid analgesics (NSAIDs, acetaminophen), or opioids not dependent on CYP2D6 (morphine direct, oxycodone with caution)." }),
     ("PM",
      { summary := "Your CYP2D6 genotype indicates Poor Metabolizer status. Codeine will NOT provide pain relief because your body cannot convert it to its active form (morphine).",
        mechanism := "Non-functional CYP2D6 alleles (*4, *5, *6) eliminate the O-demethylation pathway required to convert codeine to morphine.",
        clinical_impact := "No analgesic effect from codeine. Patient may be mistakenly labeled as \"drug-seeking\" when the drug simply cannot work.",
        alternative_drugs := "Acetaminophen, NSAIDs, or direct-acting opioids (morphine, hydromorphone) that do not require CYP2D6 activation." }),
     ("NM",
      { summary := "Your CYP2D6 genotype supports normal codeine metabolism. Standard dosing is appropriate for pain management.",
        mechanism := "Normal CYP2D6 activity converts approximately 10% of codeine to morphine, providing expected analgesic effect.",
        clinical_impact := "Standard pain relief expected at therapeutic doses.",
        alternative_drugs := "No pharmacogenomic-based change needed." })]),
   ("WARFARIN",
    [("PM",
      { summary := "Your CYP2C9 genotype indicates Poor Metabolizer status. You require a significantly LOWER warfarin dose to avoid dangerous bleeding complications.",
        mechanism := "CYP2C9 *2 and *3 alleles reduce metabolism of S-warfarin (the more potent enantiomer) by 50-90%, causing drug accumulation and excessive anticoagulation.",
        clinical_impact := "Without dose adjustment, high risk of supratherapeutic INR, leading to major bleeding events including intracranial hemorrhage.",
        alternative_drugs := "Direct oral anticoagulants (DOACs) like rivaroxaban or apixaban may be considered as they are less affected by CYP2C9 variants." }),
     ("IM",
      { summary := "Your CYP2C9 genotype shows Intermediate Metabolizer status. A moderate dose reduction of warfarin is recommended.",
        mechanism := "One reduced-function CYP2C9 allele partially impairs S-warfarin clearance.",
        clinical_impact := "Moderately increased sensitivity to warfarin. Closer INR monitoring needed during dose titration.",
        alternative_drugs := "Consider DOACs if INR management is challenging." }),
     ("NM",
      { summary := "Your CYP2C9 genotype supports normal warfarin metabolism. Standard dosing protocol applies.",
        mechanism := "Normal CYP2C9 activity provides expected S-warfarin clearance.",
        clinical_impact := "Standard dose-response relationship expected.",
        alternative_drugs := "No pharmacogenomic-based change needed." })]),
   ("SIMVASTATIN",
    [("PM",
      { summary := "Your SLCO1B1 genotype indicates Poor Function. Simvastatin levels will be dangerously elevated, causing high risk of muscle damage (rhabdomyolysis).",
        mechanism := "SLCO1B1 *5 allele impairs hepatic uptake transporter OATP1B1, reducing simvastatin acid clearance from blood by ~220%, causing systemic myotoxic exposure.",
        clinical_impact := "Up to 17× increased risk of simvastatin-related myopathy. Rhabdomyolysis can cause acute kidney failure.",
        alternative_drugs := "Rosuvastatin or pravastatin (minimal SLCO1B1 dependence). Avoid simvastatin >20mg and lovastatin." }),
     ("IM",
      { summary := "Your SLCO1B1 genotype shows Intermediate Function. Lower simvastatin doses are recommended to reduce muscle toxicity risk.",
        mechanism := "Heterozygous SLCO1B1 *1/*5 partially impairs hepatic uptake, moderately increasing systemic statin exposure.",
        clinical_impact := "Approximately 4× increased myopathy risk at standard doses.",
        alternative_drugs := "Consider rosuvastatin as alternative, or limit simvastatin to ≤20mg/day." }),
     ("NM",
      { summary := "Your SLCO1B1 genotype supports normal statin transport. Standard simvastatin dosing is appropriate.",
        mechanism := "Normal OATP1B1 transporter function enables efficient hepatic uptake of simvastatin acid.",
        clinical_impact := "Standard myopathy risk at therapeutic doses.",
        alternative_drugs := "No pharmacogenomic-based change needed." })]),
   ("AZATHIOPRINE",
    [("PM",
      { summary := "CRITICAL: Your TPMT genotype shows Poor Metabolizer status. Standard azathioprine doses can be FATAL. Immediate 10-fold dose reduction or drug avoidance required.",
        mechanism := "Non-functional TPMT alleles (*2, *3A, *3C) eliminate thiopurine s-methylation, shunting metabolism toward cytotoxic 6-thioguanine nucleotides (6-TGN) accumulation.",
        clinical_impact := "Near-certain severe myelosuppression (pancytopenia) at standard doses, potentially fatal within weeks of treatment initiation.",
        alternative_drugs := "Mycophenolate mofetil (CellCept®) as alternative immunosuppressant. If azathioprine used, reduce to 10% dose with weekly CBC monitoring." }),
     ("IM",
      { summary := "Your TPMT genotype shows Intermediate Metabolizer status. Dose reduction required to prevent bone marrow suppression.",
        mechanism := "One functional and one non-functional TPMT allele results in approximately 50% reduced methylation capacity.",
        clinical_impact := "Significantly increased risk of myelosuppression at standard doses.",
        alternative_drugs := "Reduce dose by 30-70%. Monitor CBC weekly initially, then monthly." }),
     ("NM",
      { summary := "Your TPMT genotype supports normal thiopurine metabolism. Standard dosing with routine monitoring.",
        mechanism := "Normal TPMT activity provides expected thiopurine methylation.",
        clinical_impact := "Standard toxicity risk with routine monitoring.",
        alternative_drugs := "No pharmacogenomic-based change needed." })]),
   ("FLUOROURACIL",
    [("PM",
      { summary := "LIFE-THREATENING: Your DPYD genotype shows Poor Metabolizer status. Fluorouracil/capecitabine is CONTRAINDICATED. Use will likely cause severe, potentially fatal toxicity.",
        mechanism := "DPYD *2A and *13 alleles eliminate dihydropyrimidine dehydrogenase (DPD) activity, the rate-limiting enzyme for fluoropyrimidine catabolism, causing massive drug accumulation.",
        clinical_impact := "Expected severe to fatal mucositis, neutropenic sepsis, neurotoxicity (cerebellar syndrome), and cardiotoxicity.",
        alternative_drugs := "Discuss alternative chemotherapy regimens with oncology. If fluoropyrimidine essential, use ≤25% dose with intensive monitoring and uridine triacetate rescue available." }),
     ("IM",
      { summary := "Your DPYD genotype shows Intermediate Metabolizer status. Fluorouracil dose MUST be reduced by 25-50% to prevent life-threatening toxicity.",
        mechanism := "Heterozygous DPYD variant reduces DPD enzyme activity by approximately 50%, impairing fluoropyrimidine catabolism.",
        clinical_impact := "High risk of grade 3-4 toxicity (severe mucositis, diarrhea, myelosuppression) without dose reduction.",
        alternative_drugs := "Reduce 5-FU/capecitabine dose by 25-50%. Ensure uridine triacetate is available for emergency rescue." }),
     ("NM",
      { summary := "Your DPYD genotype supports normal fluoropyrimidine metabolism. Standard oncology protocol dosing.",
        mechanism := "Normal DPD activity provides expected fluoropyrimidine catabolism.",
        clinical_impact := "Standard chemotherapy toxicity risk.",
        alternative_drugs := "No pharmacogenomic-based change needed." })])]

/-- The source's floating-point literal 0.92 as the exact rational 23/25
(see `confidenceConstantsAreTheLiterals`). -/
def conf092 : ℚ := Rat.mk' 23 25

/-- The source's floating-point literal 0.5 as the exact rational 1/2. -/
def conf05 : ℚ := Rat.mk' 1 2

/-- The source's floating-point literal 0.4 as the exact rational 2/5. -/
def conf04 : ℚ := Rat.mk' 2 5

/-- The source's floating-point literal 0.8 as the exact rational 4/5. -/
def conf08 : ℚ := Rat.mk' 4 5

/-- The four rational confidence constants are the decimal literals of the
source.  Confidence scores are modelled as exact rationals: the source
only ever assigns the literals 0.92/0.5/0.4 and compares them against 0.8
and 0.5, comparisons on which binary floating point and exact rational
arithmetic agree. -/
theorem confidenceConstantsAreTheLiterals :
    conf092 = 0.92 ∧ conf05 = 0.5 ∧ conf04 = 0.4 ∧ conf08 = 0.8 := by
  refine ⟨?_, ?_, ?_, ?_⟩ <;>
  · simp only [conf092, conf05, conf04, conf08, Rat.mk'_eq_divInt]
    norm_num [Rat.divInt_eq_div]

/-- `getConfidence` of `App.tsx`: 0.4 when no recommendation matched, 0.5
when the phenotype is Unknown, 0.92 otherwise. -/
def getConfidence (phenotype : Phenotype) (matched : Bool) : ℚ :=
  if !matched then conf04
  else if phenotype = Phenotype.UNKNOWN then conf05
  else conf092

/-- `risk_assessment` record of the analysis response. -/
structure RiskAssessment where
  risk_label : RiskLabel
  confidence_score : ℚ
  severity : Severity
  deriving DecidableEq, Repr

/-- `pharmacogenomic_profile` record of the analysis response. -/
structure PharmacogenomicProfile where
  primary_gene : String
  diplotype : String
  phenotype : Phenotype
  detected_variants : List DetectedVariant
  deriving DecidableEq, Repr

/-- `clinical_recommendation` record of the analysis response. -/
structure ClinicalRecommendation where
  action : String
  dosing_recommendation : String
  evidence_level : String
  cpic_guideline : String
  monitoring : String
  deriving DecidableEq, Repr

/-- `quality_metrics` record of the analysis response. -/
structure QualityMetrics where
  vcf_parsing_success : Bool
  variant_match_found : Bool
  phenotype_determined : Bool
  drug_rule_applied : Bool
  confidence_rationale : String
  deriving DecidableEq, Repr

/-- `AnalysisResponse` of `types.ts` (the RIFT 2026 JSON schema). -/
structure AnalysisResponse where
  patient_id : String
  drug : String
  timestamp : String
  risk_assessment : RiskAssessment
  pharmacogenomic_profile : PharmacogenomicProfile
  clinical_recommendation : ClinicalRecommendation
  llm_generated_explanation : LlmExplanation
  quality_metrics : QualityMetrics
  all_gene_profiles : List GeneProfile
  deriving DecidableEq, Repr

/-- The gene-profile snapshot `runAnalysis` computes before mapping over
the drugs: one profile per target gene, from the parsed variants. -/
def appProfiles (vcfContent : String) : List GeneProfile :=
  let variants := parseVcf vcfContent
  TARGET_GENES.map (fun gene =>
    let diplotype := buildDiplotype gene variants
    { gene := gene, diplotype := diplotype, phenotype := getPhenotype gene diplotype })

/-- The body of the per-drug `map` inside `runAnalysis` of `App.tsx`: the
assembly of one `AnalysisResponse` from the VCF content, the shared
profiles, the shared patient id and timestamp, and one drug name.  The
patient id and timestamp are the only non-deterministic inputs of the
source (`Math.random`, `new Date()`), passed here as parameters. -/
def assembleResponse (vcfContent : String) (profiles : List GeneProfile)
    (patientId timestamp drugName : String) : AnalysisResponse :=
  let normalizedDrug := toUpperCase drugName
  let recOpt := getRecommendation normalizedDrug profiles
  let primaryGene := jsOr (DRUG_GENE_MAP.lookup normalizedDrug) "Unknown"
  let profile := profiles.find? (fun p => p.gene == primaryGene)
  let phenotype := (profile.map (fun p => p.phenotype)).getD Phenotype.UNKNOWN
  let diplotype := jsOr (profile.map (fun p => p.diplotype)) "*1/*1"
  let parsedVariants := parseVcf vcfContent
  let geneVariants : List DetectedVariant :=
    (parsedVariants.filter (fun v => v.gene == primaryGene)).map (fun v =>
      { rsid := v.rs, gene := v.gene, star_allele := v.star,
        zygosity := "heterozygous", clinical_significance := "pharmacogenomic_variant" })
  let phenoKey := if phenotype = Phenotype.UNKNOWN then "NM" else phenotypeStr phenotype
  let llmData :=
    match (LLM_EXPLANATIONS.lookup normalizedDrug).bind (fun dx => dx.lookup phenoKey) with
    | some e => e
    | none =>
      { summary := "Analysis for " ++ normalizedDrug ++ " with " ++ phenotypeStr phenotype ++
          " metabolizer status. Standard clinical assessment applies."
        mechanism := jsOr (recOpt.map (fun r => r.mechanism))
          "Standard drug metabolism through expected enzymatic pathways."
        clinical_impact := jsOr (recOpt.map (fun r => r.action))
          "No specific pharmacogenomic impact identified."
        alternative_drugs := "Consult prescribing physician for alternatives if needed." }
  let confidence := getConfidence phenotype recOpt.isSome
  { patient_id := patientId
    drug := normalizedDrug
    timestamp := timestamp
    risk_assessment :=
      { risk_label := (recOpt.map (fun r => r.risk_label)).getD RiskLabel.UNKNOWN
        confidence_score := confidence
        severity := (recOpt.map (fun r => r.severity)).getD Severity.NONE }
    pharmacogenomic_profile :=
      { primary_gene := primaryGene
        diplotype := diplotype
        phenotype := phenotype
        detected_variants := geneVariants }
    clinical_recommendation :=
      { action := jsOr (recOpt.map (fun r => r.action))
          "No CPIC guideline available for this drug-gene combination."
        dosing_recommendation := jsOr (recOpt.map (fun r => r.dosing_recommendation))
          "Standard dosing per clinical protocol."
        evidence_level := jsOr (recOpt.map (fun r => r.evidence_level)) "N/A"
        cpic_guideline := "CPIC Guideline for " ++ normalizedDrug ++ " and " ++ primaryGene
        monitoring :=
          if recOpt.map (fun r => r.severity) = some Severity.CRITICAL ∨
              recOpt.map (fun r => r.severity) = some Severity.HIGH then
            "Intensive monitoring required. Weekly CBC, LFTs, and clinical assessment."
          else "Routine clinical monitoring per standard of care." }
    llm_generated_explanation := llmData
    quality_metrics :=
      { vcf_parsing_success := true
        variant_match_found := decide (geneVariants.length > 0)
        phenotype_determined := phenotype != Phenotype.UNKNOWN
        drug_rule_applied := recOpt.isSome
        confidence_rationale :=
          if confidence > conf08 then
            "High confidence: variant detected, phenotype mapped, CPIC guideline applied."
          else if confidence > conf05 then
            "Moderate confidence: limited variant data or partial phenotype mapping."
          else
            "Low confidence: no matching variants found for primary gene. Using default genotype." }
    all_gene_profiles := profiles }

/-- `runAnalysis` of `App.tsx` (its pure core): parse the VCF once into
gene profiles, split the drug input on commas, and assemble one response
per drug.  `patientId` and `timestamp` are the non-deterministic inputs
(`Math.random`, `new Date()`), generated once per run in the source. -/
def runAnalysis (vcfContent drugInput patientId timestamp : String) : List AnalysisResponse :=
  let profiles := appProfiles vcfContent
  let drugsToAnalyze := ((jsSplit ',' drugInput).map jsTrim).filter (fun d => d != "")
  drugsToAnalyze.map (fun drugName =>
    assembleResponse vcfContent profiles patientId timestamp drugName)

/-! ### Helper definitions and lemmas for the claims -/

/-- The phenotype `runAnalysis` resolves for a drug: the phenotype of the
profile found for the drug's mapped gene, `Unknown` when the drug has no
mapped gene or no profile exists for it. -/
def resolvedPhenotype (vcf drug : String) : Phenotype :=
  (((appProfiles vcf).find? (fun p =>
      p.gene == jsOr (DRUG_GENE_MAP.lookup (toUpperCase drug)) "Unknown")).map
    (fun p => p.phenotype)).getD Phenotype.UNKNOWN

/-- Modelled from the spec's wording of the confidence heuristic (§4.5):
0.92 if a variant for the drug's primary gene was detected in the input,
0.5 if the resolved phenotype is Unknown, 0.4 otherwise.  Stated on the
assembled report, whose `detected_variants` field holds exactly the
variants detected for the drug's primary gene. -/
def specConfidence (r : AnalysisResponse) : ℚ :=
  if r.pharmacogenomic_profile.detected_variants.length > 0 then conf092
  else if r.pharmacogenomic_profile.phenotype = Phenotype.UNKNOWN then conf05
  else conf04

/-- `find?` returns the given element when it satisfies the predicate and
the predicate determines elements of the list uniquely. -/
theorem find?_eq_some_of_unique {α : Type} (p : α → Bool) (l : List α) (a : α)
    (ha : a ∈ l) (hpa : p a = true)
    (huniq : ∀ x ∈ l, ∀ y ∈ l, p x = true → p y = true → x = y) :
    l.find? p = some a := by
  induction l with
  | nil => cases ha
  | cons h t ih =>
    by_cases hph : p h = true
    · have heq : h = a := huniq h (List.mem_cons_self h t) a ha hph hpa
      rw [List.find?_cons_of_pos t hph, heq]
    · rw [List.find?_cons_of_neg t hph]
      have ha' : a ∈ t := by
        rcases List.mem_cons.mp ha with rfl | ht
        · exact absurd hpa hph
        · exact ht
      exact ih ha'
        (fun x hx y hy => huniq x (List.mem_cons_of_mem _ hx) y (List.mem_cons_of_mem _ hy))

/-- A slash-joined string contains the character `/`. -/
theorem slash_mem_joined (x y : String) : '/' ∈ (x ++ "/" ++ y).data := by
  simp [String.data_append]

/-- No slash-joined string is an `Object.prototype` member name (none of
those names contains `/`). -/
theorem joined_not_proto_member (x y : String) :
    (x ++ "/" ++ y) ∉ OBJECT_PROTOTYPE_MEMBERS := by
  intro hmem
  have hs : '/' ∈ (x ++ "/" ++ y).data := slash_mem_joined x y
  simp only [OBJECT_PROTOTYPE_MEMBERS, List.mem_cons, List.not_mem_nil, or_false] at hmem
  rcases hmem with h | h | h | h | h | h | h | h | h | h | h | h <;>
    · rw [h] at hs
      simp at hs

/-- The sorted slash-join of a two-element list, resolved into its two
orders. -/
theorem joinSlash_jsSort_pair (x y : String) :
    joinSlash (jsSort [x, y]) =
      if jsLt x y then x ++ "/" ++ y else y ++ "/" ++ x := by
  by_cases h : jsLt x y = true <;> simp [jsSort, jsInsert, joinSlash, h]

/-- A sorted slash-join of two alleles is never an `Object.prototype`
member name. -/
theorem joinSlash_pair_not_proto_member (x y : String) :
    joinSlash (jsSort [x, y]) ∉ OBJECT_PROTOTYPE_MEMBERS := by
  rw [joinSlash_jsSort_pair]
  by_cases h : jsLt x y = true
  · rw [if_pos h]
    exact joined_not_proto_member x y
  · rw [if_neg h]
    exact joined_not_proto_member y x

/-- Every string `buildDiplotype` can return (`*1/*1` or a slash-join of
two alleles) lies outside the `Object.prototype` member names. -/
theorem buildDiplotype_not_proto_member (gene : String) (variants : List VcfVariant) :
    buildDiplotype gene variants ∉ OBJECT_PROTOTYPE_MEMBERS := by
  simp only [buildDiplotype]
  cases halleles : (variants.filter (fun v => v.gene == gene)).map (fun v => v.star) with
  | nil => decide
  | cons a t =>
    cases t with
    | nil => exact joinSlash_pair_not_proto_member "*1" a
    | cons b rest =>
      have htake : (a :: b :: rest).take 2 = [a, b] := by simp [List.take]
      show joinSlash (jsSort ((a :: b :: rest).take 2)) ∉ OBJECT_PROTOTYPE_MEMBERS
      rw [htake]
      exact joinSlash_pair_not_proto_member a b

/-- On every input the pipeline produces — a target gene and any diplotype
that is not an inherited `Object.prototype` member name — the own-key
`getPhenotype` agrees with the prototype-chain-aware `getPhenotypeJs`. -/
theorem getPhenotype_agrees_with_js (gene diplotype : String)
    (hg : gene ∈ TARGET_GENES)
    (hd : diplotype ∉ OBJECT_PROTOTYPE_MEMBERS) :
    getPhenotypeJs gene diplotype = JsPhenotypeResult.phenotype (getPhenotype gene diplotype) := by
  have hlookup : (PHENOTYPE_MAP.lookup gene).isSome = true := by
    fin_cases hg <;> decide
  obtain ⟨m, hm⟩ := Option.isSome_iff_exists.mp hlookup
  cases hdip : m.lookup diplotype with
  | some ph => simp [getPhenotypeJs, readPhenotypeMap, getPhenotype, hm, hdip]
  | none => simp [getPhenotypeJs, readPhenotypeMap, getPhenotype, hm, hdip, hd]

/-- Every gene profile the pipeline builds carries the phenotype the real
JavaScript semantics would compute: the profiles use target genes and
slash-joined diplotypes, on which the own-key model is exact. -/
theorem appProfiles_phenotype_faithful (vcf : String) :
    ∀ p ∈ appProfiles vcf,
      getPhenotypeJs p.gene p.diplotype = JsPhenotypeResult.phenotype p.phenotype := by
  intro p hp
  simp only [appProfiles, List.mem_map] at hp
  obtain ⟨gene, hgene, rfl⟩ := hp
  exact getPhenotype_agrees_with_js gene _ hgene
    (buildDiplotype_not_proto_member gene (parseVcf vcf))

set_option maxRecDepth 100000 in
/-- Every (drug, phenotype) pair occurs at most once in
`RECOMMENDATION_DATA`, so the table's first match for a pair is its only
match. -/
theorem recommendationKeyUnique :
    ∀ x ∈ RECOMMENDATION_DATA, ∀ y ∈ RECOMMENDATION_DATA,
      x.drug = y.drug → x.phenotype = y.phenotype → x = y := by decide

/-- A VCF body whose data lines carry the INFO tags
`GENE=CYP2C9;STAR=*2;RS=rs1057910` and `GENE=CYP2C9;STAR=*3;RS=rs1057911`. -/
def twoCyp2c9Vcf : String :=
  "chr10\t94938658\trs1057910\tC\tT\t100\tPASS\tGENE=CYP2C9;STAR=*2;RS=rs1057910\nchr10\t94942212\trs1057911\tA\tC\t100\tPASS\tGENE=CYP2C9;STAR=*3;RS=rs1057911"

/-- A VCF body with a single CYP2C19 variant and no CYP2C9 variant. -/
def cyp2c19OnlyVcf : String :=
  "chr19\t41511947\trs12248560\tC\tT\t100\tPASS\tGENE=CYP2C19;STAR=*17;RS=rs12248560"

/-! ### Claim theorems -/

/-- Claim C1 (counterexample): the confidence score is not the function of
variant detection the claim describes.  On an input with no CYP2C9
variant, the WARFARIN report carries confidence 0.92, while no variant for
the drug's primary gene was detected and the resolved phenotype is NM, so
the claim requires 0.4. -/
theorem confidence_claim_counterexample :
    (assembleResponse cyp2c19OnlyVcf (appProfiles cyp2c19OnlyVcf)
        "PATIENT_10000" "2026-01-01T00:00:00.000Z" "WARFARIN").risk_assessment.confidence_score ≠
      specConfidence (assembleResponse cyp2c19OnlyVcf (appProfiles cyp2c19OnlyVcf)
        "PATIENT_10000" "2026-01-01T00:00:00.000Z" "WARFARIN") := by decide

/-- Claim C1 (amended): the confidence_score of an assembled report is 0.4
when no recommendation was produced for the drug (its case-normalized name
is not in the drug→gene map), else 0.5 when the resolved phenotype is
Unknown, else 0.92 — the trigger for 0.92 is a matched recommendation, not
variant detection. -/
theorem confidence_two_branch_heuristic (vcf pid ts drug : String) :
    (assembleResponse vcf (appProfiles vcf) pid ts drug).risk_assessment.confidence_score =
      if (getRecommendation (toUpperCase drug) (appProfiles vcf)).isSome = false then conf04
      else if resolvedPhenotype vcf drug = Phenotype.UNKNOWN then conf05 else conf092 := by
  have h : (assembleResponse vcf (appProfiles vcf) pid ts drug).risk_assessment.confidence_score =
      getConfidence (resolvedPhenotype vcf drug)
        (getRecommendation (toUpperCase drug) (appProfiles vcf)).isSome := rfl
  rw [h]
  cases hm : (getRecommendation (toUpperCase drug) (appProfiles vcf)).isSome <;>
    simp [getConfidence]

/-- Claim C2 (code behaviour at the failing input): for a data line whose
INFO field carries `RS=rs999` and whose identifier (3rd) field is `myid`,
the parser emits reference id `myid`, not the RS value `rs999`: in
`rs || parts[2] !== '.' ? parts[2] : 'unknown'` the ternary condition is
`(rs || (parts[2] !== '.'))`, so the RS value itself is never emitted. -/
theorem parseVcf_emits_id_column_despite_rs_tag :
    parseVcf "chr1\t100\tmyid\tA\tT\t50\tPASS\tGENE=CYP2C9;STAR=*2;RS=rs999" =
      [{ gene := "CYP2C9", star := "*2", rs := "myid" }] := by decide

/-- Claim C3: on the input with INFO tags `GENE=CYP2C9;STAR=*2;RS=rs1057910`
and `GENE=CYP2C9;STAR=*3;RS=rs1057911` on separate lines, the CYP2C9
diplotype resolves to `*2/*3`, its phenotype to PM, and the WARFARIN
report carries risk label "Adjust Dosage" with severity "moderate". -/
theorem warfarin_cyp2c9_end_to_end :
    buildDiplotype "CYP2C9" (parseVcf twoCyp2c9Vcf) = "*2/*3" ∧
    getPhenotype "CYP2C9" "*2/*3" = Phenotype.PM ∧
    riskLabelStr (assembleResponse twoCyp2c9Vcf (appProfiles twoCyp2c9Vcf) "PATIENT_10000"
        "2026-01-01T00:00:00.000Z" "WARFARIN").risk_assessment.risk_label = "Adjust Dosage" ∧
    severityStr (assembleResponse twoCyp2c9Vcf (appProfiles twoCyp2c9Vcf) "PATIENT_10000"
        "2026-01-01T00:00:00.000Z" "WARFARIN").risk_assessment.severity = "moderate" := by
  refine ⟨?_, ?_, ?_, ?_⟩ <;> decide

/-- Claim C4 (counterexample): under real JavaScript property semantics
the claim fails at inherited `Object.prototype` member names.
`PHENOTYPE_MAP["toString"]` is the truthy inherited
`Object.prototype.toString`, so `getPhenotype("toString", "*1/*1")`
proceeds past the Unknown branch and returns NM (the claim demands
Unknown, since `toString` is not a key of the table); and under the known
gene CYP2C19 the read `geneMap["constructor"]` finds the truthy inherited
constructor function and returns it as is (the claim demands NM). -/
theorem getPhenotype_claim_counterexample :
    getPhenotypeJs "toString" "*1/*1" = JsPhenotypeResult.phenotype Phenotype.NM ∧
    getPhenotypeJs "CYP2C19" "constructor" =
      JsPhenotypeResult.leakedProtoMember "constructor" := by decide

/-- Claim C4 (amended): for a gene that is neither an own key of the
phenotype table nor an inherited `Object.prototype` member name,
`getPhenotype` returns Unknown; for every (gene, diplotype) pair in the
table it returns exactly the tabled phenotype (own keys shadow the
prototype chain, so this branch needs no restriction); for a gene that is
a key and a diplotype that is neither found nor an inherited
`Object.prototype` member name, it returns NM, not Unknown. -/
theorem getPhenotypeJs_lookup_and_fallbacks (gene diplotype : String) :
    (PHENOTYPE_MAP.lookup gene = none →
      gene ∉ OBJECT_PROTOTYPE_MEMBERS →
      getPhenotypeJs gene diplotype = JsPhenotypeResult.phenotype Phenotype.UNKNOWN) ∧
    (∀ geneMap ph, PHENOTYPE_MAP.lookup gene = some geneMap →
      geneMap.lookup diplotype = some ph →
      getPhenotypeJs gene diplotype = JsPhenotypeResult.phenotype ph) ∧
    (∀ geneMap, PHENOTYPE_MAP.lookup gene = some geneMap →
      geneMap.lookup diplotype = none →
      diplotype ∉ OBJECT_PROTOTYPE_MEMBERS →
      getPhenotypeJs gene diplotype = JsPhenotypeResult.phenotype Phenotype.NM) := by
  refine ⟨fun h1 h2 => ?_, fun geneMap ph h1 h2 => ?_, fun geneMap h1 h2 h3 => ?_⟩
  · simp [getPhenotypeJs, readPhenotypeMap, h1, h2]
  · simp [getPhenotypeJs, readPhenotypeMap, h1, h2]
  · simp [getPhenotypeJs, readPhenotypeMap, h1, h2, h3]

/-- Witness for claim C4, covering all three branches of the amended claim
at concrete inputs. -/
theorem getPhenotypeJs_lookup_and_fallbacks_witness :
    getPhenotypeJs "CYP2C9" "*2/*3" = JsPhenotypeResult.phenotype Phenotype.PM ∧
    getPhenotypeJs "BRCA1" "*1/*1" = JsPhenotypeResult.phenotype Phenotype.UNKNOWN ∧
    getPhenotypeJs "CYP2C9" "*2/*9" = JsPhenotypeResult.phenotype Phenotype.NM :=
  ⟨(getPhenotypeJs_lookup_and_fallbacks "CYP2C9" "*2/*3").2.1 _ Phenotype.PM rfl rfl,
   (getPhenotypeJs_lookup_and_fallbacks "BRCA1" "*1/*1").1 rfl (by decide),
   (getPhenotypeJs_lookup_and_fallbacks "CYP2C9" "*2/*9").2.2 _ rfl rfl (by decide)⟩

/-- Claim C5: `getRecommendation` returns `null` when the case-normalized
drug is not in the drug→gene map or when no profile for the drug's gene is
in the list; it returns exactly the tabled record when a (drug, phenotype)
record exists in `RECOMMENDATION_DATA`; otherwise it returns the default
Safe/none/evidence-A recommendation. -/
theorem getRecommendation_lookup_and_fallbacks (drugInput : String) (profiles : List GeneProfile) :
    (DRUG_GENE_MAP.lookup (toUpperCase (jsTrim drugInput)) = none →
      getRecommendation drugInput profiles = none) ∧
    (∀ targetGene, DRUG_GENE_MAP.lookup (toUpperCase (jsTrim drugInput)) = some targetGene →
      profiles.find? (fun p => p.gene == targetGene) = none →
      getRecommendation drugInput profiles = none) ∧
    (∀ targetGene profile r, DRUG_GENE_MAP.lookup (toUpperCase (jsTrim drugInput)) = some targetGene →
      profiles.find? (fun p => p.gene == targetGene) = some profile →
      r ∈ RECOMMENDATION_DATA → r.drug = toUpperCase (jsTrim drugInput) →
      r.phenotype = profile.phenotype →
      getRecommendation drugInput profiles = some r) ∧
    (∀ targetGene profile, DRUG_GENE_MAP.lookup (toUpperCase (jsTrim drugInput)) = some targetGene →
      profiles.find? (fun p => p.gene == targetGene) = some profile →
      RECOMMENDATION_DATA.find? (fun x => x.drug == toUpperCase (jsTrim drugInput) &&
        x.phenotype == profile.phenotype) = none →
      getRecommendation drugInput profiles =
        some (defaultRecommendation (toUpperCase (jsTrim drugInput)) profile.phenotype)) := by
  refine ⟨fun h1 => ?_, fun targetGene h1 h2 => ?_,
    fun targetGene profile r h1 h2 hr hdrug hpheno => ?_, fun targetGene profile h1 h2 h3 => ?_⟩
  · simp [getRecommendation, h1]
  · simp [getRecommendation, h1, h2]
  · have hfind : RECOMMENDATION_DATA.find? (fun x => x.drug == toUpperCase (jsTrim drugInput) &&
        x.phenotype == profile.phenotype) = some r := by
      refine find?_eq_some_of_unique _ _ r hr (by simp [hdrug, hpheno]) ?_
      intro x hx y hy hpx hpy
      simp only [Bool.and_eq_true, beq_iff_eq] at hpx hpy
      exact recommendationKeyUnique x hx y hy (hpx.1.trans hpy.1.symm) (hpx.2.trans hpy.2.symm)
    simp [getRecommendation, h1, h2, hfind]
  · simp [getRecommendation, h1, h2, h3]

set_option maxRecDepth 100000 in
/-- Witness for claim C5: the WARFARIN/PM pair returns exactly the tabled
record (index 12 of `RECOMMENDATION_DATA`). -/
theorem getRecommendation_lookup_and_fallbacks_witness :
    getRecommendation "WARFARIN" [⟨"CYP2C9", "*2/*3", Phenotype.PM⟩] =
      some (RECOMMENDATION_DATA.getD 12 (defaultRecommendation "WARFARIN" Phenotype.PM)) :=
  (getRecommendation_lookup_and_fallbacks "WARFARIN" [⟨"CYP2C9", "*2/*3", Phenotype.PM⟩]).2.2.1
    "CYP2C9" ⟨"CYP2C9", "*2/*3", Phenotype.PM⟩
    (RECOMMENDATION_DATA.getD 12 (defaultRecommendation "WARFARIN" Phenotype.PM))
    rfl rfl (by decide) (by decide) (by decide)

/-- Claim C6: with two or more alleles detected for a gene, the diplotype
is the sorted join of exactly the first two alleles in input order; the
tail `rest` (every third and subsequent allele) does not occur in the
result. -/
theorem buildDiplotype_takes_first_two (gene : String) (variants : List VcfVariant)
    (a b : String) (rest : List String)
    (h : (variants.filter (fun v => v.gene == gene)).map (fun v => v.star) = a :: b :: rest) :
    buildDiplotype gene variants = joinSlash (jsSort [a, b]) := by
  simp only [buildDiplotype]
  rw [h]
  simp [List.take]

/-- Witness for claim C6: with alleles `*3`, `*2`, `*17` detected for
CYP2C9 in that order, the result is `*2/*3`, identical to the result
without the third allele. -/
theorem buildDiplotype_takes_first_two_witness :
    buildDiplotype "CYP2C9"
      [⟨"CYP2C9", "*3", "r1"⟩, ⟨"CYP2C9", "*2", "r2"⟩, ⟨"CYP2C9", "*17", "r3"⟩] = "*2/*3" ∧
    buildDiplotype "CYP2C9" [⟨"CYP2C9", "*3", "r1"⟩, ⟨"CYP2C9", "*2", "r2"⟩] = "*2/*3" :=
  ⟨Trans.trans
    (buildDiplotype_takes_first_two "CYP2C9"
      [⟨"CYP2C9", "*3", "r1"⟩, ⟨"CYP2C9", "*2", "r2"⟩, ⟨"CYP2C9", "*17", "r3"⟩]
      "*3" "*2" ["*17"] rfl) (by decide),
   Trans.trans
    (buildDiplotype_takes_first_two "CYP2C9"
      [⟨"CYP2C9", "*3", "r1"⟩, ⟨"CYP2C9", "*2", "r2"⟩]
      "*3" "*2" [] rfl) (by decide)⟩

/-- Claim C7: with zero alleles detected for a gene the diplotype is
exactly `*1/*1`; with exactly one allele `x` it is `*1` and `x` in
code-unit lexicographic string order joined by `/`. -/
theorem buildDiplotype_zero_and_one_allele (gene : String) (variants : List VcfVariant) :
    ((variants.filter (fun v => v.gene == gene)).map (fun v => v.star) = [] →
      buildDiplotype gene variants = "*1/*1") ∧
    (∀ x, (variants.filter (fun v => v.gene == gene)).map (fun v => v.star) = [x] →
      buildDiplotype gene variants =
        if jsLt "*1" x then "*1" ++ "/" ++ x else x ++ "/" ++ "*1") := by
  constructor
  · intro h
    simp only [buildDiplotype]
    rw [h]
  · intro x h
    simp only [buildDiplotype]
    rw [h]
    by_cases hlt : jsLt "*1" x <;> simp [jsSort, jsInsert, joinSlash, hlt]

/-- Witness for claim C7: no alleles give `*1/*1`, and the single allele
`*17` gives `*1/*17` (string order, not numeric). -/
theorem buildDiplotype_zero_and_one_allele_witness :
    buildDiplotype "CYP2D6" [] = "*1/*1" ∧
    buildDiplotype "CYP2C19" [⟨"CYP2C19", "*17", "rs12248560"⟩] = "*1/*17" :=
  ⟨(buildDiplotype_zero_and_one_allele "CYP2D6" []).1 rfl,
   Trans.trans
    ((buildDiplotype_zero_and_one_allele "CYP2C19" [⟨"CYP2C19", "*17", "rs12248560"⟩]).2
      "*17" rfl) (by decide)⟩

/-- Claim C8: a line whose scanned GENE tag uppercases to a string outside
the 6-element `TARGET_GENES` allow-list yields no variant record
(`parseVcf` is the per-line `parseVcfLine` collected over all lines, so no
record of the output originates from such a line). -/
theorem parseVcf_rejects_nontarget_genes (line g : String)
    (hg : (scanInfo (jsSplit ';' ((jsSplit '\t' line).getD 7 ""))).gene = some g)
    (hnot : TARGET_GENES.contains (toUpperCase g) = false) :
    parseVcfLine line = none := by
  unfold parseVcfLine
  simp only [hg, hnot, Option.getD_some, Bool.false_eq_true, and_false, if_false, ite_self]

/-- Witness for claim C8: a well-formed line for the non-target gene BRCA1
yields no record. -/
theorem parseVcf_rejects_nontarget_genes_witness :
    parseVcfLine "chr17\t43044295\trs1\tA\tT\t50\tPASS\tGENE=BRCA1;STAR=*2;RS=rs1" = none :=
  parseVcf_rejects_nontarget_genes
    "chr17\t43044295\trs1\tA\tT\t50\tPASS\tGENE=BRCA1;STAR=*2;RS=rs1" "BRCA1" rfl (by decide)

/-- Claim C9: the pipeline is deterministic up to its two non-deterministic
inputs (patient id and timestamp): two runs on the same VCF content and
drug input produce reports with identical risk_assessment,
pharmacogenomic_profile, and clinical_recommendation fields, and the
confidence score is exactly `getConfidence` of the resolved phenotype and
the recommendation match state. -/
theorem runAnalysis_deterministic (vcf drugInput pid1 ts1 pid2 ts2 : String) :
    ((runAnalysis vcf drugInput pid1 ts1).map (fun r => r.risk_assessment) =
      (runAnalysis vcf drugInput pid2 ts2).map (fun r => r.risk_assessment)) ∧
    ((runAnalysis vcf drugInput pid1 ts1).map (fun r => r.pharmacogenomic_profile) =
      (runAnalysis vcf drugInput pid2 ts2).map (fun r => r.pharmacogenomic_profile)) ∧
    ((runAnalysis vcf drugInput pid1 ts1).map (fun r => r.clinical_recommendation) =
      (runAnalysis vcf drugInput pid2 ts2).map (fun r => r.clinical_recommendation)) ∧
    (∀ drugName,
      (assembleResponse vcf (appProfiles vcf) pid1 ts1 drugName).risk_assessment.confidence_score =
        getConfidence (resolvedPhenotype vcf drugName)
          (getRecommendation (toUpperCase drugName) (appProfiles vcf)).isSome) := by
  refine ⟨?_, ?_, ?_, fun drugName => rfl⟩ <;>
  · simp only [runAnalysis, List.map_map]
    rfl

/-- Claim C10: every report of every run carries
`quality_metrics.vcf_parsing_success = true`; no input text produces a
report with the flag false. -/
theorem vcf_parsing_success_constant_true (vcf drugInput pid ts : String) :
    (runAnalysis vcf drugInput pid ts).all
      (fun r => r.quality_metrics.vcf_parsing_success) = true := by
  rw [List.all_eq_true]
  intro r hr
  simp only [runAnalysis, List.mem_map] at hr
  obtain ⟨d, _, rfl⟩ := hr
  rfl

end PharmaGuard
